import Mathlib

/-!
Shallow embedding of the MiniKit webview bridge (packages/core/minikit.ts).

The embedding models the core protocol of the bridge:
  * the `Command` enumeration with the bridge-required versions
    (`miniKitCommandVersion`),
  * capability negotiation (`commandsValid`, driven by `Object.entries(...)
    .every(...)` which short-circuits at the first failing command),
  * `install` with its ordered guards (window presence / prior registration,
    appId recording, host-context check, registration, negotiation),
  * the single-slot event bus (`subscribe` / `unsubscribe` / `trigger`) with
    its per-topic wrapping of handlers (wallet-auth profile lookup, verify
    proof re-encoding),
  * the async correlator `awaitCommand`,
  * the command entry points' guard behaviour (modelled here for
    `shareContacts`, whose guard reads the `SignTypedData` flag).

External collaborators that are not part of this repository's src
(`compressAndPadProof`, `getUserProfile`) are opaque: they appear as
function parameters of the definitions that invoke them.  Asynchrony
(`await` / `.then`) is embedded by making each wrapped handler produce an
explicit description of its execution: either a synchronous invocation or a
deferred one, and for the wallet-auth wrapper a full ordered trace of steps.
-/

namespace MiniKit

/-- The `Command` enum from types/commands.ts (one row per supported command). -/
inductive Command
  | verify
  | pay
  | walletAuth
  | sendTransaction
  | signMessage
  | signTypedData
  | shareContacts
  | requestPermission
  | getPermissions
  | sendHapticFeedback
  | shareFiles
  deriving DecidableEq, Repr, Fintype

/-- The string value of each `Command` enum member (the wire name the host
advertises in its capability descriptor). -/
def Command.name : Command → String
  | .verify => "verify"
  | .pay => "pay"
  | .walletAuth => "wallet-auth"
  | .sendTransaction => "send-transaction"
  | .signMessage => "sign-message"
  | .signTypedData => "sign-typed-data"
  | .shareContacts => "share-contacts"
  | .requestPermission => "request-permission"
  | .getPermissions => "get-permissions"
  | .sendHapticFeedback => "send-haptic-feedback"
  | .shareFiles => "share-files"

/-- `MiniKit.miniKitCommandVersion`: the protocol version the bridge requires
for each command (all currently 1). -/
def miniKitCommandVersion : Command → Nat
  | .verify => 1
  | .pay => 1
  | .walletAuth => 1
  | .sendTransaction => 1
  | .signMessage => 1
  | .signTypedData => 1
  | .shareContacts => 1
  | .requestPermission => 1
  | .getPermissions => 1
  | .sendHapticFeedback => 1
  | .shareFiles => 1

/-- The iteration order of `Object.entries(this.miniKitCommandVersion)`:
string keys in insertion order, i.e. the declaration order of the record. -/
def commandOrder : List Command :=
  [.verify, .pay, .walletAuth, .sendTransaction, .signMessage, .signTypedData,
   .shareContacts, .requestPermission, .getPermissions, .sendHapticFeedback,
   .shareFiles]

/-- One row of the host's capability descriptor: `{name, supported_versions}`. -/
structure SupportedCommand where
  name : String
  supported_versions : List Nat
  deriving DecidableEq, Repr

/-- `worldAppSupportedCommands.find((command) => command.name === minikitCommandName)`. -/
def findCommand (sup : List SupportedCommand) (n : String) : Option SupportedCommand :=
  sup.find? (fun sc => sc.name == n)

/-- The body of `MiniKit.commandsValid`: iterate the commands in entry order,
and for each one look its name up in the host descriptor.  A found command has
its availability flag set to `true` (regardless of version); a missing command
is logged and left unavailable.  The `.every` combinator short-circuits: the
first command whose lookup is missing (or whose required version is not in
`supported_versions`) ends the iteration with overall result `false`, leaving
later commands unprocessed. -/
def commandsValidAux (D : List SupportedCommand) :
    List Command → (Command → Bool) → ((Command → Bool) × Bool)
  | [], avail => (avail, true)
  | c :: rest, avail =>
      match findCommand D (Command.name c) with
      | none => (avail, false)
      | some sc =>
          let avail1 : Command → Bool := fun x => if x = c then true else avail x
          if sc.supported_versions.contains (miniKitCommandVersion c) = true then
            commandsValidAux D rest avail1
          else
            (avail1, false)

/-- `MiniKit.commandsValid(worldAppSupportedCommands)`, taking the current
`isCommandAvailable` table and returning the updated table together with the
overall `.every` result. -/
def commandsValid (D : List SupportedCommand) (avail : Command → Bool) :
    (Command → Bool) × Bool :=
  commandsValidAux D commandOrder avail

/-- Whether command `c` negotiates successfully against descriptor `D`:
its name is found and the bridge-required version is in the advertised
`supported_versions`. -/
def commandNegotiable (D : List SupportedCommand) (c : Command) : Bool :=
  match findCommand D (Command.name c) with
  | some sc => sc.supported_versions.contains (miniKitCommandVersion c)
  | none => false

/-- Specification helper: the commands strictly before the first occurrence of
`X` in a negotiation order (the commands whose availability flags have been
set by the time the short-circuiting `.every` reaches `X`). -/
def beforeMissing (X : Command) : List Command → List Command
  | [] => []
  | c :: rest => if c = X then [] else c :: beforeMissing X rest

/-- Boolean list membership for commands (spec helper). -/
def memB (c : Command) : List Command → Bool
  | [] => false
  | x :: rest => if c = x then true else memB c rest

/-- Specification helper mirroring the availability table produced by the
short-circuiting negotiation when it aborts at command `X`: every command
encountered strictly before `X` is flipped to `true`; `X` and everything after
it keep their previous flags. -/
def availScan : List Command → Command → (Command → Bool) → (Command → Bool)
  | [], _, avail => avail
  | c :: rest, X, avail =>
      if c = X then avail
      else availScan rest X (fun x => if x = c then true else avail x)

/-- The `window.WorldApp` host-context object (the fields install reads). -/
structure WorldAppCtx where
  supported_commands : List SupportedCommand
  is_optional_analytics : Bool
  device_os : String
  world_app_version : Nat
  deriving DecidableEq, Repr

/-- The hosting environment as `install` observes it: whether a `window`
object exists, whether `window.MiniKit` is already set, whether
`window.WorldApp` is present, and whether the registration step
(`window.MiniKit = MiniKit; this.sendInit()`) throws. -/
structure HostEnv where
  windowPresent : Bool
  miniKitRegistered : Bool
  worldApp : Option WorldAppCtx
  registrationThrows : Bool
  deriving DecidableEq, Repr

/-- Looked-up profile for an address (result of the external
`getUserProfile`, which is not part of this repository's src). -/
structure UserProfile where
  username : String
  profilePictureUrl : String
  deriving DecidableEq, Repr

/-- The process-wide `MiniKit.user` session context. -/
structure User where
  walletAddress : Option String := none
  username : Option String := none
  profilePictureUrl : Option String := none
  optedIntoOptionalAnalytics : Option Bool := none
  deviceOS : Option String := none
  worldAppVersion : Option Nat := none
  deriving DecidableEq, Repr

/-- The bridge's process-wide mutable state touched by `install`:
`MiniKit.appId`, `MiniKit.isCommandAvailable`, `MiniKit.user`. -/
structure MiniKitState where
  appId : Option String := none
  isCommandAvailable : Command → Bool := fun _ => false
  user : User := {}

/-- Fresh bridge state at process start. -/
def minikitInit : MiniKitState := {}

/-- `MiniKitInstallErrorCodes` (types/errors.ts). -/
inductive InstallErrorCode
  | alreadyInstalled
  | outsideOfWorldApp
  | unknown
  | appOutOfDate
  deriving DecidableEq, Repr

/-- `MiniKitInstallReturnType`, discriminated on `success`. -/
inductive InstallResult
  | ok
  | err (code : InstallErrorCode)
  deriving DecidableEq, Repr

/-- Lines 262--266 / 295--299 of minikit.ts: copy the host-reported fields
into the session context. -/
def setUserFromWorldApp (u : User) (ctx : WorldAppCtx) : User :=
  { u with
    optedIntoOptionalAnalytics := some ctx.is_optional_analytics
    deviceOS := some ctx.device_os
    worldAppVersion := some ctx.world_app_version }

/-- `MiniKit.install(appId?)`.  Steps in source order:
1. no `window`, or `window.MiniKit` already set, fails `AlreadyInstalled`;
2. a non-empty `appId` is recorded (`MiniKit.appId = appId`) — before any
   host-context check;
3. no `window.WorldApp` fails `OutsideOfWorldApp`;
4. host-reported user fields are copied into the session context;
5. registering the bridge / sending `init` may throw, failing `Unknown`;
6. capability negotiation runs; on failure install returns `AppOutOfDate`
   but keeps the availability flags negotiation already set;
7. user fields are copied again and install succeeds. -/
def install (env : HostEnv) (s : MiniKitState) (appId : Option String) :
    InstallResult × MiniKitState :=
  if env.windowPresent = false ∨ env.miniKitRegistered = true then
    (.err .alreadyInstalled, s)
  else
    let s1 := if appId = none ∨ appId = some "" then s else { s with appId := appId }
    match env.worldApp with
    | none => (.err .outsideOfWorldApp, s1)
    | some ctx =>
        let s2 := { s1 with user := setUserFromWorldApp s1.user ctx }
        if env.registrationThrows = true then
          (.err .unknown, s2)
        else
          let res := commandsValid ctx.supported_commands s2.isCommandAvailable
          let s3 := { s2 with isCommandAvailable := res.1 }
          if res.2 = true then
            (.ok, { s3 with user := setUserFromWorldApp s3.user ctx })
          else
            (.err .appOutOfDate, s3)

/-- `ResponseEvent` topics (types/responses.ts). -/
inductive ResponseEvent
  | miniAppVerifyAction
  | miniAppPayment
  | miniAppWalletAuth
  | miniAppSendTransaction
  | miniAppSignMessage
  | miniAppSignTypedData
  | miniAppShareContacts
  | miniAppRequestPermission
  | miniAppGetPermissions
  | miniAppSendHapticFeedback
  | miniAppShareFiles
  deriving DecidableEq, Repr

/-- The `status` discriminant of an inbound event. -/
inductive Status
  | success
  | error
  deriving DecidableEq, Repr

/-- `VerificationLevel` from idkit-core; `orb` is the strongest level. -/
inductive VerificationLevel
  | orb
  | device
  | document
  | secureDocument
  deriving DecidableEq, Repr

/-- An inbound event payload; the fields the bridge's own wrappers inspect or
mutate (`status`, `verification_level`, `proof`, `address`), with the
remaining command-specific fields collapsed into the opaque `rest`. -/
structure EventPayload where
  status : Status
  verification_level : Option VerificationLevel := none
  proof : String := ""
  address : String := ""
  rest : String := ""
  deriving DecidableEq, Repr

/-- What `MiniKit.subscribe` actually stores in the `listeners` slot for a
topic: caller handlers (of opaque type `H`) are stored as-is for most topics,
but wallet-auth and verify-action handlers are wrapped; the initial table
holds a built-in no-op `() => {}` for every topic. -/
inductive StoredHandler (H : Type)
  | builtinNoop
  | plain (h : H)
  | walletAuthWrapped (h : H)
  | verifyWrapped (h : H)
  deriving DecidableEq, Repr

/-- The `listeners` record: at most one stored handler per topic. -/
def Listeners (H : Type) := ResponseEvent → Option (StoredHandler H)

/-- The initial `listeners` table: a built-in no-op for every topic. -/
def initialListeners (H : Type) : Listeners H := fun _ => some .builtinNoop

/-- How `subscribe` wraps a caller handler, by topic. -/
def wrapFor {H : Type} (e : ResponseEvent) (h : H) : StoredHandler H :=
  match e with
  | .miniAppWalletAuth => .walletAuthWrapped h
  | .miniAppVerifyAction => .verifyWrapped h
  | _ => .plain h

/-- `MiniKit.subscribe(event, handler)`: overwrite the slot for `event` with
the (possibly wrapped) handler. -/
def subscribe {H : Type} (l : Listeners H) (e : ResponseEvent) (h : H) : Listeners H :=
  fun x => if x = e then some (wrapFor e h) else l x

/-- `MiniKit.unsubscribe(event)`: `delete this.listeners[event]`. -/
def unsubscribe {H : Type} (l : Listeners H) (e : ResponseEvent) : Listeners H :=
  fun x => if x = e then none else l x

/-- Outcome of `MiniKit.trigger(event, payload)`: no slot means a logged
error and nothing invoked; otherwise the stored handler runs. -/
inductive TriggerOutcome (H : Type)
  | loggedNoHandler
  | ran (sh : StoredHandler H)
  deriving DecidableEq, Repr

/-- `MiniKit.trigger(event, payload)` dispatch. -/
def trigger {H : Type} (l : Listeners H) (e : ResponseEvent) : TriggerOutcome H :=
  match l e with
  | none => .loggedNoHandler
  | some sh => .ran sh

/-- Whether the trigger call took the `console.error` branch. -/
def triggerLogsError {H : Type} : TriggerOutcome H → Bool
  | .loggedNoHandler => true
  | .ran _ => false

/-- The caller handler (if any) underlying a stored handler. -/
def callerOf {H : Type} : StoredHandler H → Option H
  | .builtinNoop => none
  | .plain h => some h
  | .walletAuthWrapped h => some h
  | .verifyWrapped h => some h

/-- The caller handler (if any) a trigger outcome hands the payload to. -/
def outcomeCaller {H : Type} : TriggerOutcome H → Option H
  | .loggedNoHandler => none
  | .ran sh => callerOf sh

/-- The in-place payload mutation the verify-action wrapper performs before
invoking the original handler: on a success payload at level `Orb` the proof
field is replaced by its re-encoded value (`compressAndPadProof`, an external
opaque transform passed as `compress`); all other shapes are untouched. -/
def verifyWrapperTransform (compress : String → String) (p : EventPayload) : EventPayload :=
  if p.status = .success ∧ p.verification_level = some .orb then
    { p with proof := compress p.proof }
  else
    p

/-- How a stored handler delivers a payload to its caller handler: which
caller handler receives it and with which (possibly transformed) payload.
The built-in no-op delivers to nobody. -/
def deliveredPayload {H : Type} (compress : String → String)
    (sh : StoredHandler H) (p : EventPayload) : Option (H × EventPayload) :=
  match sh with
  | .builtinNoop => none
  | .plain h => some (h, p)
  | .walletAuthWrapped h => some (h, p)
  | .verifyWrapped h => some (h, verifyWrapperTransform compress p)

/-- The invocation a verify-action wrapped handler performs: synchronous with
the untouched payload, or deferred behind the `compressAndPadProof(...).then`
continuation with the mutated payload. -/
inductive HandlerInvocation (H : Type)
  | syncCall (h : H) (p : EventPayload)
  | afterProofReencode (h : H) (p : EventPayload)
  deriving DecidableEq, Repr

/-- Running the verify-action wrapper (minikit.ts lines 148--169) on a
payload: a success payload at level `Orb` re-encodes the proof asynchronously
and only then invokes the original handler; every other shape is passed to
the original handler synchronously, unmodified. -/
def runVerifyWrapped {H : Type} (compress : String → String) (h : H)
    (p : EventPayload) : HandlerInvocation H :=
  if p.status = .success ∧ p.verification_level = some .orb then
    .afterProofReencode h (verifyWrapperTransform compress p)
  else
    .syncCall h p

/-- One step in the execution of the wallet-auth wrapped handler. -/
inductive WAStep (H : Type)
  | setWalletAddress (a : String)
  | awaitProfileLookup (a : String)
  | mergeProfile (a : String)
  | logLookupFailure
  | invokeHandler (h : H) (p : EventPayload)
  deriving DecidableEq, Repr

/-- Running the wallet-auth wrapped handler (minikit.ts lines 127--147) on a
payload, as the ordered trace of its steps.  On a success payload the wrapper
records the wallet address, `await`s the profile lookup (merging the profile
on success, catching and logging on failure), and only then invokes the
original handler; on any other payload it invokes the handler immediately.
`lookupOk` abstracts whether the external `getUserProfile` call resolves. -/
def runWalletAuthWrapped {H : Type} (lookupOk : Bool) (h : H)
    (p : EventPayload) : List (WAStep H) :=
  if p.status = .success then
    [.setWalletAddress p.address, .awaitProfileLookup p.address] ++
      (if lookupOk then [.mergeProfile p.address] else [.logLookupFailure]) ++
      [.invokeHandler h p]
  else
    [.invokeHandler h p]

/-- Is a wallet-auth step the invocation of the original handler? -/
def WAStep.isInvoke {H : Type} : WAStep H → Bool
  | .invokeHandler _ _ => true
  | _ => false

/-- Is a wallet-auth step the settling of the profile lookup (profile merged
or failure caught and logged)? -/
def WAStep.isLookupSettled {H : Type} : WAStep H → Bool
  | .mergeProfile _ => true
  | .logLookupFailure => true
  | _ => false

/-- Index of the first step satisfying a predicate. -/
def firstIdx {H : Type} (q : WAStep H → Bool) : List (WAStep H) → Option Nat
  | [] => none
  | st :: rest => if q st then some 0 else (firstIdx q rest).map (· + 1)

/-- Whether, in a wallet-auth wrapper trace, the original handler runs before
the profile lookup settles (the "delivery is not blocked on the lookup"
reading: with no lookup at all the handler trivially runs unblocked). -/
def handlerRunsBeforeLookupSettles {H : Type} (tr : List (WAStep H)) : Bool :=
  match firstIdx WAStep.isInvoke tr, firstIdx WAStep.isLookupSettled tr with
  | some i, some j => decide (i < j)
  | some _, none => true
  | none, _ => false

/-- The session-context update the wallet-auth wrapper performs for a payload:
on success the wallet address is recorded, and a successful profile lookup
merges the looked-up username and picture (the failure of the lookup is
caught: the address update is kept and nothing else changes). -/
def userAfterWalletAuthEvent (lookup : String → Option UserProfile)
    (u : User) (p : EventPayload) : User :=
  if p.status = .success then
    let u1 := { u with walletAddress := some p.address }
    match lookup p.address with
    | some prof =>
        { u1 with
          username := some prof.username
          profilePictureUrl := some prof.profilePictureUrl }
    | none => u1
  else
    u

/-- The observable state of one `MiniKit.awaitCommand` call: whether its
internal handler still occupies the topic slot, the captured
`commandPayload` reference, and the resolution of the returned promise. -/
structure CorrState (C : Type) where
  subscribed : Bool
  commandPayload : Option C
  resolved : Option (Option C × EventPayload)
  deriving DecidableEq, Repr

/-- The synchronous part of `awaitCommand(event, command, executor)`:
`commandPayload` starts as `null`, the internal `handleAndUnsubscribe`
handler is subscribed, then `commandPayload = executor()` runs — all before
control returns to the host's message loop, so by the time any event can be
delivered the captured reference holds the executor's result `r` (which is
`none` when the executor signalled validation failure). -/
def awaitCommandStart {C : Type} (r : Option C) : CorrState C :=
  { subscribed := true, commandPayload := r, resolved := none }

/-- Delivery of one event to the correlator's topic.  If its handler is still
subscribed it first unsubscribes itself, then resolves the promise with
`{commandPayload, finalPayload}` (resolution of an already-resolved promise
is a no-op); if it has already unsubscribed, the delivery does not reach it
and nothing changes. -/
def corrDeliver {C : Type} (s : CorrState C) (p : EventPayload) : CorrState C :=
  if s.subscribed = true then
    let s1 := { s with subscribed := false }
    { s1 with
      resolved :=
        match s1.resolved with
        | none => some (s1.commandPayload, p)
        | some v => some v }
  else
    s

/-- The `finalPayload` the caller of `commandsAsync.verify` observes for a
host-delivered verify event: the payload first passes through the wrapper
installed by `subscribe` (which already re-encodes an Orb-level success
proof), and then — lines 654--661 — the async wrapper re-encodes the proof of
an Orb-level success payload again after `awaitCommand` resolves. -/
def asyncVerifyFinalPayload (compress : String → String) (p : EventPayload) :
    EventPayload :=
  let delivered := verifyWrapperTransform compress p
  if delivered.status = .success ∧ delivered.verification_level = some .orb then
    { delivered with proof := compress delivered.proof }
  else
    delivered

/-- `ShareContactsInput` (types/commands.ts). -/
structure ShareContactsInput where
  isMultiSelectEnabled : Bool
  inviteMessage : Option String := none
  deriving DecidableEq, Repr

/-- An envelope handed to `sendWebviewEvent`: `{command, version, payload}`. -/
structure SentEvent (P : Type) where
  command : Command
  version : Nat
  payload : P
  deriving DecidableEq, Repr

/-- `MiniKit.commands.shareContacts` (minikit.ts lines 520--541): the guard
checks `typeof window === 'undefined' || !this.isCommandAvailable[Command.SignTypedData]`
— note the flag consulted is `SignTypedData`'s, not `ShareContacts`'s — and on
guard failure logs and returns `null` without sending; otherwise the input is
sent unchanged under the `share-contacts` tag and returned. -/
def shareContactsEntry (windowPresent : Bool) (avail : Command → Bool)
    (payload : ShareContactsInput) :
    Option ShareContactsInput × List (SentEvent ShareContactsInput) :=
  if windowPresent = false ∨ avail Command.signTypedData = false then
    (none, [])
  else
    (some payload,
     [{ command := .shareContacts,
        version := miniKitCommandVersion .shareContacts,
        payload := payload }])

/-- An availability table in which only `SignTypedData` negotiated
successfully. -/
def availOnlySignTypedData : Command → Bool :=
  fun c => c = Command.signTypedData

/-- Concrete inputs used by the closed instances below. -/
def supportedRow (n : String) : SupportedCommand :=
  { name := n, supported_versions := [1] }

/-- A capability descriptor advertising every known command except `verify`,
each with the bridge-required version. -/
def descriptorMissingVerify : List SupportedCommand :=
  [supportedRow "pay", supportedRow "wallet-auth", supportedRow "send-transaction",
   supportedRow "sign-message", supportedRow "sign-typed-data",
   supportedRow "share-contacts", supportedRow "request-permission",
   supportedRow "get-permissions", supportedRow "send-haptic-feedback",
   supportedRow "share-files"]

/-- A capability descriptor advertising every known command except `pay`. -/
def descriptorMissingPay : List SupportedCommand :=
  [supportedRow "verify", supportedRow "wallet-auth", supportedRow "send-transaction",
   supportedRow "sign-message", supportedRow "sign-typed-data",
   supportedRow "share-contacts", supportedRow "request-permission",
   supportedRow "get-permissions", supportedRow "send-haptic-feedback",
   supportedRow "share-files"]

/-- Host context advertising `descriptorMissingVerify`. -/
def ctx0 : WorldAppCtx :=
  { supported_commands := descriptorMissingVerify
    is_optional_analytics := true
    device_os := "ios"
    world_app_version := 100 }

/-- Environment inside the host app, fresh, with `ctx0`. -/
def env0 : HostEnv :=
  { windowPresent := true
    miniKitRegistered := false
    worldApp := some ctx0
    registrationThrows := false }

/-- Host context advertising `descriptorMissingPay`. -/
def ctx1 : WorldAppCtx :=
  { supported_commands := descriptorMissingPay
    is_optional_analytics := false
    device_os := "android"
    world_app_version := 101 }

/-- Environment inside the host app, fresh, with `ctx1`. -/
def env1 : HostEnv :=
  { windowPresent := true
    miniKitRegistered := false
    worldApp := some ctx1
    registrationThrows := false }

/-- Environment with a `window` but no host context (`window.WorldApp`
absent). -/
def env9 : HostEnv :=
  { windowPresent := true
    miniKitRegistered := false
    worldApp := none
    registrationThrows := false }

/-- Environment with no `window` object at all (server-side rendering). -/
def envNoWindow : HostEnv :=
  { windowPresent := false
    miniKitRegistered := false
    worldApp := none
    registrationThrows := false }

/-- A concrete stand-in for the opaque `compressAndPadProof` transform. -/
def cpFun : String → String := fun s => "cp:" ++ s

/-- A verify-action success payload at the strongest level. -/
def pOrb : EventPayload :=
  { status := .success, verification_level := some .orb, proof := "0xab" }

/-- A verify-action error payload. -/
def pErrEvt : EventPayload := { status := .error }

/-- A wallet-auth success payload. -/
def pWalletOk : EventPayload := { status := .success, address := "0xaa" }

/-- A concrete looked-up profile. -/
def prof0 : UserProfile := { username := "alice", profilePictureUrl := "pic" }

/-- A lookup that always finds `prof0`. -/
def lookup0 : String → Option UserProfile := fun _ => some prof0

/-! ## Helper lemmas about negotiation -/

/-- Every known command occurs in the negotiation order. -/
theorem mem_commandOrder (X : Command) : X ∈ commandOrder := by
  cases X <;> simp [commandOrder]

/-- When the descriptor lacks exactly `X` (its name is absent and every other
command negotiates), the short-circuiting `.every` aborts at `X`: the result
is `false` and the availability table is the input with exactly the commands
encountered before `X` flipped to `true`. -/
theorem commandsValidAux_missing
    (D : List SupportedCommand) (X : Command)
    (hmiss : findCommand D (Command.name X) = none)
    (hother : ∀ c : Command, c ≠ X → commandNegotiable D c = true) :
    ∀ l : List Command, X ∈ l → ∀ avail : Command → Bool,
      commandsValidAux D l avail = (availScan l X avail, false) := by
  intro l
  induction l with
  | nil => intro h; cases h
  | cons c rest ih =>
      intro hmem avail
      by_cases hc : c = X
      · subst hc
        simp [commandsValidAux, availScan, hmiss]
      · have hneg := hother c hc
        have hmem' : X ∈ rest := by
          cases hmem with
          | head => exact absurd rfl hc
          | tail _ h => exact h
        unfold commandNegotiable at hneg
        cases hfind : findCommand D (Command.name c) with
        | none => rw [hfind] at hneg; simp at hneg
        | some sc =>
            rw [hfind] at hneg
            have hneg2 : sc.supported_versions.contains (miniKitCommandVersion c) = true :=
              hneg
            have hmem2 : miniKitCommandVersion c ∈ sc.supported_versions := by
              simpa using hneg2
            have hstep : commandsValidAux D (c :: rest) avail =
                commandsValidAux D rest (fun x => if x = c then true else avail x) := by
              simp [commandsValidAux, hfind, hmem2]
            have hscan : availScan (c :: rest) X avail =
                availScan rest X (fun x => if x = c then true else avail x) := by
              simp [availScan, hc]
            rw [hstep, hscan, ih hmem']

/-- `availScan` flips exactly the flags of the commands strictly before `X`. -/
theorem availScan_eq_memB (X : Command) :
    ∀ (l : List Command) (avail : Command → Bool) (c : Command),
      availScan l X avail c = (avail c || memB c (beforeMissing X l)) := by
  intro l
  induction l with
  | nil => intro avail c; simp [availScan, beforeMissing, memB]
  | cons x rest ih =>
      intro avail c
      by_cases hx : x = X
      · subst hx
        simp [availScan, beforeMissing, memB]
      · rw [show availScan (x :: rest) X avail = availScan rest X
              (fun y => if y = x then true else avail y) by
            simp [availScan, hx]]
        rw [ih]
        by_cases hcx : c = x
        · subst hcx
          simp [beforeMissing, memB, hx]
        · simp [beforeMissing, memB, hx, hcx]

/-- A command is never listed before its own position. -/
theorem memB_beforeMissing_self (X : Command) :
    memB X (beforeMissing X commandOrder) = false := by
  cases X <;> rfl

/-- Membership in the prefix before `X` is exactly the index comparison in the
fixed negotiation order. -/
theorem memB_beforeMissing_indexOf (X c : Command) :
    memB c (beforeMissing X commandOrder) =
      decide (commandOrder.indexOf c < commandOrder.indexOf X) := by
  cases X <;> cases c <;> rfl

/-! ## Claims about negotiation and install -/

/-- Claim C1 (counterexample): a capability descriptor lacking exactly the
known command `verify` but containing every other known command at the
required version makes `install` fail with `AppOutOfDate`, yet the
availability flag of `pay` — another known command, present with a matching
version — is `false` after install returns, because `.every` short-circuited
at the missing first command.  This refutes the claim that every other known
command's flag is `true`. -/
theorem install_missing_verify_counterexample :
    (install env0 minikitInit (some "app_c")).1 = .err .appOutOfDate ∧
    (install env0 minikitInit (some "app_c")).2.isCommandAvailable .verify = false ∧
    (install env0 minikitInit (some "app_c")).2.isCommandAvailable .pay = false := by
  refine ⟨rfl, rfl, rfl⟩

/-- Claim C1 (amended): for every capability descriptor that lacks exactly one
known command `X` and contains every other known command with the bridge's
required version, `install` returns failure with `AppOutOfDate` and the
availability flag of `X` is `false`; but because negotiation short-circuits
at the first failing command, the availability flag of another known command
`c` is `true` exactly when `c` strictly precedes `X` in the fixed negotiation
order (commands after `X` keep their pre-install `false` flags). -/
theorem install_missing_command_short_circuit
    (X : Command) (D : List SupportedCommand) (ctx : WorldAppCtx)
    (env : HostEnv) (s : MiniKitState) (a : String)
    (hwin : env.windowPresent = true)
    (hreg : env.miniKitRegistered = false)
    (hwa : env.worldApp = some ctx)
    (hthrow : env.registrationThrows = false)
    (hsup : ctx.supported_commands = D)
    (ha : a ≠ "")
    (h0 : ∀ c, s.isCommandAvailable c = false)
    (hmiss : findCommand D (Command.name X) = none)
    (hother : ∀ c : Command, c ≠ X → commandNegotiable D c = true) :
    (install env s (some a)).1 = .err .appOutOfDate ∧
    (install env s (some a)).2.isCommandAvailable X = false ∧
    ∀ c : Command, (install env s (some a)).2.isCommandAvailable c =
      decide (commandOrder.indexOf c < commandOrder.indexOf X) := by
  have hvalid := commandsValidAux_missing D X hmiss hother commandOrder
    (mem_commandOrder X)
  have hinst : install env s (some a) =
      (.err .appOutOfDate,
        { s with
          appId := some a
          user := setUserFromWorldApp s.user ctx
          isCommandAvailable := availScan commandOrder X s.isCommandAvailable }) := by
    simp [install, hwin, hreg, hwa, hthrow, ha, commandsValid, hsup,
      hvalid s.isCommandAvailable]
  refine ⟨by rw [hinst], ?_, ?_⟩
  · rw [hinst]
    show availScan commandOrder X s.isCommandAvailable X = false
    rw [availScan_eq_memB, h0, memB_beforeMissing_self]
    rfl
  · intro c
    rw [hinst]
    show availScan commandOrder X s.isCommandAvailable c = _
    rw [availScan_eq_memB, h0, memB_beforeMissing_indexOf]
    rfl

/-- Claim C1 (witness for the amended theorem): the descriptor lacking exactly
`pay` at a fresh install: `AppOutOfDate` is reported, `pay` ends unavailable,
and `verify` — which precedes `pay` in the negotiation order — ends
available. -/
theorem install_missing_command_short_circuit_witness :
    (install env1 minikitInit (some "app_w")).1 = .err .appOutOfDate ∧
    (install env1 minikitInit (some "app_w")).2.isCommandAvailable .pay = false ∧
    (install env1 minikitInit (some "app_w")).2.isCommandAvailable .verify = true := by
  have h := install_missing_command_short_circuit .pay descriptorMissingPay ctx1
    env1 minikitInit "app_w" rfl rfl rfl rfl rfl (by decide) (fun c => rfl)
    (by decide) (by decide)
  exact ⟨h.1, h.2.1, (h.2.2 Command.verify).trans (by decide)⟩

/-- Claim C9: `install` records a non-empty `appId` before the host-presence
check runs, so a call made with a `window` but outside the host context (no
`window.WorldApp`, no prior registration) fails with `OutsideOfWorldApp` and
still leaves the process-wide `appId` equal to the argument — install is not
atomic on failure. -/
theorem install_records_appId_before_host_check
    (env : HostEnv) (s : MiniKitState) (a : String)
    (hwin : env.windowPresent = true)
    (hreg : env.miniKitRegistered = false)
    (hwa : env.worldApp = none)
    (ha : a ≠ "") :
    install env s (some a) = (.err .outsideOfWorldApp, { s with appId := some a }) := by
  simp [install, hwin, hreg, hwa, ha]

/-- Claim C9 (witness): a concrete fresh state and environment with a window
but no `window.WorldApp`. -/
theorem install_records_appId_before_host_check_witness :
    install env9 minikitInit (some "app_9") =
      (.err .outsideOfWorldApp, { minikitInit with appId := some "app_9" }) :=
  install_records_appId_before_host_check env9 minikitInit "app_9" rfl rfl rfl
    (by decide)

/-- Claim C10: in an environment with no `window` object at all (server-side
rendering), `install` fails with `AlreadyInstalled` — the same error code as
a duplicate registration, as the second conjunct shows — rather than
`OutsideOfWorldApp`, for every appId and prior state. -/
theorem install_no_window_reports_alreadyInstalled
    (env env2 : HostEnv) (s s2 : MiniKitState) (aid aid2 : Option String)
    (hwin : env.windowPresent = false)
    (hreg : env2.miniKitRegistered = true) :
    install env s aid = (.err .alreadyInstalled, s) ∧
    (install env2 s2 aid2).1 = .err .alreadyInstalled := by
  constructor
  · simp [install, hwin]
  · simp [install, hreg]

/-- Claim C10 (witness): concrete no-window environment and a concrete
already-registered environment. -/
theorem install_no_window_reports_alreadyInstalled_witness :
    install envNoWindow minikitInit none = (.err .alreadyInstalled, minikitInit) ∧
    (install { envNoWindow with windowPresent := true, miniKitRegistered := true }
        minikitInit none).1 = .err .alreadyInstalled :=
  install_no_window_reports_alreadyInstalled envNoWindow
    { envNoWindow with windowPresent := true, miniKitRegistered := true }
    minikitInit minikitInit none none rfl rfl

/-! ## Claims about the event bus and response transforms -/

/-- Claim C6: subscribing twice to the same topic replaces the first handler:
`trigger` after `subscribe(T, h1); subscribe(T, h2)` runs the stored handler
built from `h2` (through the topic's wrapper where one applies), the payload
is delivered to `h2`, and `h1` — when it is a different handler — is never
the recipient. -/
theorem subscribe_second_replaces_first
    (H : Type) (l : Listeners H) (e : ResponseEvent) (h1 h2 : H)
    (compress : String → String) (p : EventPayload) :
    trigger (subscribe (subscribe l e h1) e h2) e = .ran (wrapFor e h2) ∧
    (deliveredPayload compress (wrapFor e h2) p).map Prod.fst = some h2 ∧
    (h1 ≠ h2 →
      (deliveredPayload compress (wrapFor e h2) p).map Prod.fst ≠ some h1) := by
  refine ⟨?_, ?_, ?_⟩
  · simp [trigger, subscribe]
  · cases e <;> simp [wrapFor, deliveredPayload]
  · intro hne contra
    have : some h2 = some h1 := by
      have h := (by cases e <;> simp [wrapFor, deliveredPayload] :
        (deliveredPayload compress (wrapFor e h2) p).map Prod.fst = some h2)
      rw [h] at contra
      exact contra
    exact hne (Option.some.injEq _ _ ▸ this).symm

/-- Claim C6 (witness): two distinct concrete handlers on the payment topic. -/
theorem subscribe_second_replaces_first_witness :
    trigger (subscribe (subscribe (initialListeners Nat) .miniAppPayment 0)
        .miniAppPayment 1) .miniAppPayment = .ran (wrapFor .miniAppPayment 1) ∧
    (deliveredPayload cpFun (wrapFor .miniAppPayment 1) pErrEvt).map Prod.fst ≠
      some 0 :=
  ⟨(subscribe_second_replaces_first Nat (initialListeners Nat) .miniAppPayment
      0 1 cpFun pErrEvt).1,
   (subscribe_second_replaces_first Nat (initialListeners Nat) .miniAppPayment
      0 1 cpFun pErrEvt).2.2 (by decide)⟩

/-- Claim C8 (counterexample): `trigger` on a topic that was never subscribed
does not log an error: the `listeners` table is pre-populated with a built-in
no-op handler for every topic, so the `!this.listeners[event]` guard is not
taken — the call silently invokes the no-op (still invoking no caller
handler and not throwing).  This refutes the claimed error log for the
never-subscribed case. -/
theorem trigger_never_subscribed_counterexample :
    trigger (initialListeners Nat) .miniAppPayment = .ran .builtinNoop ∧
    triggerLogsError (trigger (initialListeners Nat) .miniAppPayment) = false ∧
    outcomeCaller (trigger (initialListeners Nat) .miniAppPayment) =
      (none : Option Nat) := by
  refine ⟨rfl, rfl, rfl⟩

/-- Claim C8 (amended): after `unsubscribe(T)` the slot is deleted, so
`trigger(T, p)` logs an error, invokes no caller handler, and does not throw;
with no prior subscribe at all, `trigger` instead runs the pre-installed
built-in no-op — no error is logged, and still no caller handler is invoked
and nothing throws. -/
theorem trigger_after_unsubscribe_vs_initial
    (H : Type) (l : Listeners H) (e : ResponseEvent) :
    trigger (unsubscribe l e) e = .loggedNoHandler ∧
    triggerLogsError (trigger (unsubscribe l e) e) = true ∧
    outcomeCaller (trigger (unsubscribe l e) e) = (none : Option H) ∧
    trigger (initialListeners H) e = .ran .builtinNoop ∧
    triggerLogsError (trigger (initialListeners H) e) = false ∧
    outcomeCaller (trigger (initialListeners H) e) = (none : Option H) := by
  refine ⟨?_, ?_, ?_, rfl, rfl, rfl⟩ <;>
    simp [trigger, unsubscribe, triggerLogsError, outcomeCaller]

/-- Claim C8 (witness for the amended theorem): concrete topic and listeners
table. -/
theorem trigger_after_unsubscribe_vs_initial_witness :
    trigger (unsubscribe (initialListeners Nat) .miniAppWalletAuth)
        .miniAppWalletAuth = .loggedNoHandler ∧
    triggerLogsError (trigger (initialListeners Nat) .miniAppWalletAuth) =
      false :=
  ⟨(trigger_after_unsubscribe_vs_initial Nat (initialListeners Nat)
      .miniAppWalletAuth).1,
   (trigger_after_unsubscribe_vs_initial Nat (initialListeners Nat)
      .miniAppWalletAuth).2.2.2.2.1⟩

/-- Claim C2: a verify-action handler is stored wrapped; on a success payload
at the strongest level (`Orb`) the wrapper invokes the caller's handler only
after the proof field has been replaced by its re-encoded value (the deferred
`afterProofReencode` invocation carries the mutated payload), and on every
other shape (lower level, or status error) the handler is invoked
synchronously with the payload unmodified. -/
theorem verify_event_transform_before_delivery
    (H : Type) (compress : String → String) (h : H) (p : EventPayload) :
    trigger (subscribe (initialListeners H) .miniAppVerifyAction h)
      .miniAppVerifyAction = .ran (.verifyWrapped h) ∧
    (p.status = .success ∧ p.verification_level = some .orb →
      runVerifyWrapped compress h p =
        .afterProofReencode h { p with proof := compress p.proof }) ∧
    (¬(p.status = .success ∧ p.verification_level = some .orb) →
      runVerifyWrapped compress h p = .syncCall h p) := by
  refine ⟨?_, ?_, ?_⟩
  · simp [trigger, subscribe, wrapFor]
  · intro hcond
    simp [runVerifyWrapped, verifyWrapperTransform, hcond]
  · intro hcond
    simp [runVerifyWrapped, hcond]

/-- Claim C2 (witness): a concrete Orb-level success payload is delivered
deferred with its proof re-encoded; a concrete error payload is delivered
synchronously and unmodified. -/
theorem verify_event_transform_before_delivery_witness :
    runVerifyWrapped cpFun (0 : Nat) pOrb =
      .afterProofReencode 0 { pOrb with proof := cpFun pOrb.proof } ∧
    runVerifyWrapped cpFun (0 : Nat) pErrEvt = .syncCall 0 pErrEvt :=
  ⟨(verify_event_transform_before_delivery Nat cpFun 0 pOrb).2.1 ⟨rfl, rfl⟩,
   (verify_event_transform_before_delivery Nat cpFun 0 pErrEvt).2.2 (by decide)⟩

/-- Claim C5 (counterexample): on a concrete successful wallet-auth event the
wrapped handler's trace is address-update, await-lookup, profile-merge and
only then the caller's handler invocation — the handler does not run before
the lookup settles, refuting the claim that delivery is never blocked on the
lookup completing. -/
theorem walletAuth_delivery_blocked_counterexample :
    runWalletAuthWrapped true (0 : Nat) pWalletOk =
      [.setWalletAddress "0xaa", .awaitProfileLookup "0xaa",
       .mergeProfile "0xaa", .invokeHandler 0 pWalletOk] ∧
    handlerRunsBeforeLookupSettles (runWalletAuthWrapped true (0 : Nat) pWalletOk) =
      false := by
  refine ⟨rfl, rfl⟩

/-- Claim C5 (amended): for every successful wallet-auth event the session
context is updated to hold the profile for the returned address when the
lookup succeeds; a lookup failure is caught and logged and never propagated
(the caller's handler is still invoked); but delivery of the payload to the
caller's handler is blocked on the lookup settling — the wrapped handler
`await`s the profile fetch, so the handler never runs before the merge. -/
theorem walletAuth_lookup_settles_before_delivery
    (H : Type) (lookupOk : Bool) (h : H) (p : EventPayload)
    (lookup : String → Option UserProfile) (u : User) (prof : UserProfile)
    (hs : p.status = .success) :
    WAStep.invokeHandler h p ∈ runWalletAuthWrapped lookupOk h p ∧
    handlerRunsBeforeLookupSettles (runWalletAuthWrapped lookupOk h p) = false ∧
    (lookupOk = false →
      WAStep.logLookupFailure ∈ runWalletAuthWrapped lookupOk h p) ∧
    (lookup p.address = some prof →
      (userAfterWalletAuthEvent lookup u p).walletAddress = some p.address ∧
      (userAfterWalletAuthEvent lookup u p).username = some prof.username ∧
      (userAfterWalletAuthEvent lookup u p).profilePictureUrl =
        some prof.profilePictureUrl) := by
  refine ⟨?_, ?_, ?_, ?_⟩
  · cases lookupOk <;> simp [runWalletAuthWrapped, hs]
  · cases lookupOk <;>
      simp [runWalletAuthWrapped, hs, handlerRunsBeforeLookupSettles, firstIdx,
        WAStep.isInvoke, WAStep.isLookupSettled]
  · intro hlk
    subst hlk
    simp [runWalletAuthWrapped, hs]
  · intro hlook
    simp [userAfterWalletAuthEvent, hs, hlook]

/-- Claim C5 (witness): concrete successful event, successful lookup. -/
theorem walletAuth_lookup_settles_before_delivery_witness :
    handlerRunsBeforeLookupSettles (runWalletAuthWrapped true (7 : Nat) pWalletOk) =
      false ∧
    (userAfterWalletAuthEvent lookup0 {} pWalletOk).username = some "alice" :=
  ⟨(walletAuth_lookup_settles_before_delivery Nat true 7 pWalletOk lookup0 {}
      prof0 rfl).2.1,
   ((walletAuth_lookup_settles_before_delivery Nat true 7 pWalletOk lookup0 {}
      prof0 rfl).2.2.2 rfl).2.1⟩

/-- Claim C3: `awaitCommand` resolves exactly once, on the first event
delivered to its topic after subscription, with `commandPayload` equal to the
executor's result `r` — including `r = none`, the executor's validation
failure — and `finalPayload` equal to the delivered payload; the internal
handler unsubscribes itself on that first event, so a second event on the
topic does not change the resolution (and the model has no rejection path:
the promise constructor only captures `resolve`). -/
theorem awaitCommand_resolves_exactly_once
    (C : Type) (r : Option C) (p p2 : EventPayload) :
    (corrDeliver (awaitCommandStart r) p).resolved = some (r, p) ∧
    (corrDeliver (awaitCommandStart r) p).subscribed = false ∧
    corrDeliver (corrDeliver (awaitCommandStart r) p) p2 =
      corrDeliver (awaitCommandStart r) p := by
  refine ⟨rfl, rfl, ?_⟩
  simp [corrDeliver, awaitCommandStart]

/-- Claim C3 (witness): a correlator whose executor returned `null` still
resolves with `commandPayload = none` and the delivered payload, and a second
delivery changes nothing. -/
theorem awaitCommand_resolves_exactly_once_witness :
    (corrDeliver (awaitCommandStart (none : Option Nat)) pErrEvt).resolved =
      some (none, pErrEvt) ∧
    (corrDeliver (awaitCommandStart (none : Option Nat)) pErrEvt).subscribed =
      false ∧
    corrDeliver (corrDeliver (awaitCommandStart (none : Option Nat)) pErrEvt)
        pOrb =
      corrDeliver (awaitCommandStart (none : Option Nat)) pErrEvt :=
  awaitCommand_resolves_exactly_once Nat none pErrEvt pOrb

/-! ## Claims about the command dispatcher and async call style -/

/-- Claim C4 (code bug): `MiniKit.commands.shareContacts` guards on the wrong
availability flag — `Command.SignTypedData` instead of `Command.ShareContacts`.
In a capability table where only `SignTypedData` negotiated (so
`ShareContacts` is unavailable) and with a window present, the entry does not
return `null`: it returns the payload and hands an envelope to the transport,
contradicting the guard contract that an unavailable command returns null and
never calls `sendWebviewEvent`. -/
theorem shareContacts_guard_checks_wrong_flag :
    availOnlySignTypedData .shareContacts = false ∧
    shareContactsEntry true availOnlySignTypedData { isMultiSelectEnabled := true } =
      (some { isMultiSelectEnabled := true },
       [{ command := .shareContacts, version := 1,
          payload := { isMultiSelectEnabled := true } }]) := by
  refine ⟨by decide, by decide⟩

/-- Claim C7 (code bug): through the asynchronous call style the proof
re-encoding runs twice: once inside the wrapper `subscribe` installs around
`awaitCommand`'s internal handler, and once more in `commandsAsync.verify`
after the await — so the caller's `finalPayload.proof` is
`compressAndPadProof` applied twice to the host-delivered proof, and differs
from the once-encoded value. -/
theorem asyncVerify_applies_transform_twice :
    (asyncVerifyFinalPayload cpFun pOrb).proof = cpFun (cpFun pOrb.proof) ∧
    (asyncVerifyFinalPayload cpFun pOrb).proof ≠ cpFun pOrb.proof := by
  refine ⟨rfl, by decide⟩

end MiniKit
